import Mathlib

/-!
Verification of the esp-now_bridge_light application bootstrap
(`examples/esp-now_bridge_light/main/app_main.cpp`).

The C file wires external collaborators (Matter stack, drivers, bridge
registry, Wi-Fi layer) together.  We embed its functions shallowly:

* `app_attribute_update_cb`, `app_identification_cb`, `app_event_cb` and
  `wifi_is_provisioned` become pure Lean functions.  Externals the code calls
  (the driver update, `esp_wifi_get_config`) are supplied as parameters, and
  observable actions (driver calls, log lines) are returned explicitly.
* `app_main` becomes a function from an environment — the results of every
  external call it makes — to the trace of steps it performs, so that
  ordering and error-policy claims are statements about that trace.
-/

namespace EspNowBridgeLight

/-- Type `esp_err_t` from esp-idf, embedded as `Int`. -/
abbrev esp_err_t := Int

/-- Constant `ESP_OK` (0). -/
def ESP_OK : esp_err_t := 0

/-- Constant `ESP_FAIL` (-1). -/
def ESP_FAIL : esp_err_t := -1

/-- Constant `ESP_ERR_INVALID_ARG` (0x102). -/
def ESP_ERR_INVALID_ARG : esp_err_t := 0x102

/-! ## Attribute update dispatcher (`app_attribute_update_cb`) -/

/-- Enumeration `esp_matter::attribute::callback_type_t`: the phases an attribute-update
callback can be invoked with (PRE_UPDATE, POST_UPDATE, READ, WRITE). -/
inductive callback_type_t where
  | PRE_UPDATE
  | POST_UPDATE
  | READ
  | WRITE
  deriving DecidableEq, Repr

/-- One invocation of the external driver-update interface
`app_driver_attribute_update(driver_handle, endpoint_id, cluster_id,
attribute_id, val)`, recorded with the exact arguments passed.
Pointers (`driver_handle`, `val`) are embedded as `Nat` identities. -/
structure DriverCall where
  driver_handle : Nat
  endpoint_id : Nat
  cluster_id : Nat
  attribute_id : Nat
  val : Nat
  deriving DecidableEq, Repr

/-- Function `app_attribute_update_cb` from app_main.cpp.  `drv` is the external
`app_driver_attribute_update` function; the result pairs the returned
`esp_err_t` with the list of driver calls performed.  The source sets
`err = ESP_OK`, and only on `type == PRE_UPDATE` casts `priv_data` to the
driver handle and overwrites `err` with the driver's result. -/
def app_attribute_update_cb
    (drv : Nat → Nat → Nat → Nat → Nat → esp_err_t)
    (type : callback_type_t) (endpoint_id : Nat) (cluster_id : Nat)
    (attribute_id : Nat) (val : Nat) (priv_data : Nat) :
    esp_err_t × List DriverCall :=
  if type = .PRE_UPDATE then
    let driver_handle := priv_data
    (drv driver_handle endpoint_id cluster_id attribute_id val,
     [⟨driver_handle, endpoint_id, cluster_id, attribute_id, val⟩])
  else
    (ESP_OK, [])

/-- Modelled from the spec: the protocol layer's attribute commit
(esp_matter core, not under src/).  It invokes the registered callback with
phase PRE_UPDATE and the proposed value, and applies the proposed value only
when the callback returns `ESP_OK`; on failure the commit is aborted and the
stored value is left unchanged.  Returns the callback's result together with
the attribute value after the commit attempt. -/
def protocol_commit
    (drv : Nat → Nat → Nat → Nat → Nat → esp_err_t)
    (endpoint_id cluster_id attribute_id : Nat)
    (oldVal newVal : Nat) (priv_data : Nat) :
    esp_err_t × Nat :=
  let r := app_attribute_update_cb drv .PRE_UPDATE endpoint_id cluster_id
      attribute_id newVal priv_data
  if r.1 = ESP_OK then (r.1, newVal) else (r.1, oldVal)

/-! ## Identification callback (`app_identification_cb`) -/

/-- Function `app_identification_cb` from app_main.cpp: logs one line and returns
`ESP_OK`.  It reads no state and writes no state; its only observable
output is the returned error code and the log line, both returned here. -/
def app_identification_cb (type : Nat) (endpoint_id : Nat) (effect_id : Nat)
    (effect_variant : Nat) (priv_data : Nat) : esp_err_t × List String :=
  (ESP_OK, ["Identification callback: type, effect"])

/-! ## Wi-Fi provisioning query (`wifi_is_provisioned`) -/

/-- The `sta` part of `wifi_config_t`: the stored SSID as a byte array
(`uint8_t ssid[32]`). -/
structure WifiStaConfig where
  ssid : List Nat
  deriving DecidableEq, Repr

/-- The C `strlen` over a byte buffer: the number of bytes before the first
NUL terminator. -/
def cstrlen (bytes : List Nat) : Nat :=
  (bytes.takeWhile (fun b => b ≠ 0)).length

/-- Function `wifi_is_provisioned` from app_main.cpp.  `ptrNull` says whether the
`provisioned` out-pointer is NULL; `getConfigErr`/`cfg` are the result of the
external `esp_wifi_get_config(WIFI_IF_STA, &wifi_cfg)` call.  The result
pairs the returned `esp_err_t` with the value written through the pointer
(`none` when nothing was written). -/
def wifi_is_provisioned (ptrNull : Bool) (getConfigErr : esp_err_t)
    (cfg : WifiStaConfig) : esp_err_t × Option Bool :=
  if ptrNull then
    (ESP_ERR_INVALID_ARG, none)
  else
    -- *provisioned = false;
    let provisioned := false
    if getConfigErr ≠ ESP_OK then
      (ESP_FAIL, some provisioned)
    else if cstrlen cfg.ssid ≠ 0 then
      (ESP_OK, some true)
    else
      (ESP_OK, some provisioned)

/-! ## Lifecycle event router (`app_event_cb`) -/

/-- Enumeration `chip::DeviceLayer::DeviceEventType`: the event kinds the switch in
`app_event_cb` names, plus `other n` for every remaining kind (the CHIP
enumeration has many more members; all of them reach the `default:` arm). -/
inductive DeviceEventType where
  | kInterfaceIpAddressChanged
  | kCommissioningComplete
  | kFailSafeTimerExpired
  | kCommissioningSessionStarted
  | kCommissioningSessionStopped
  | kCommissioningWindowOpened
  | kCommissioningWindowClosed
  | other (n : Nat)
  deriving DecidableEq, Repr

/-- Function `app_event_cb` from app_main.cpp: a switch on `event->Type` where each
recognized kind logs one line and every other kind hits `default: break`.
The returned list is the sequence of actions (log lines) performed; the C
function returns `void` and every arm falls through to a normal return. -/
def app_event_cb (event : DeviceEventType) (arg : Int) : List String :=
  match event with
  | .kInterfaceIpAddressChanged => ["Interface IP Address changed"]
  | .kCommissioningComplete => ["Commissioning complete"]
  | .kFailSafeTimerExpired => ["Commissioning failed, fail safe timer expired"]
  | .kCommissioningSessionStarted => ["Commissioning session started"]
  | .kCommissioningSessionStopped => ["Commissioning session stopped"]
  | .kCommissioningWindowOpened => ["Commissioning window opened"]
  | .kCommissioningWindowClosed => ["Commissioning window closed"]
  | .other _ => []

/-- Delivering a sequence of lifecycle events to the router: each event is
dispatched synchronously, one at a time, in delivery order. -/
def route_events (events : List DeviceEventType) (arg : Int) : List String :=
  match events with
  | [] => []
  | e :: rest => app_event_cb e arg ++ route_events rest arg

/-! ## Startup sequence (`app_main`) -/

/-- Constant `ColorControl::Id` from the Matter cluster catalogue (0x0300). -/
def ColorControl_Id : Nat := 0x0300

/-- The results of every external call `app_main` makes: handles returned by
the driver inits, the (possibly NULL, i.e. `none`) handles returned by
node/endpoint/cluster creation, the ids `endpoint::get_id` reports, and the
error codes of `esp_matter::start`, `app_bridge_initialize` and
`esp_wifi_get_config`.  `shellEnabled` is the `CONFIG_ENABLE_CHIP_SHELL`
compile-time option. -/
structure Env where
  lightHandle : Nat
  buttonHandle : Nat
  nodeHandle : Option Nat
  lightEndpoint : Option Nat
  aggregatorEndpoint : Option Nat
  getId : Option Nat → Nat
  colorCluster : Option Nat
  startErr : esp_err_t
  bridgeInitErr : esp_err_t
  wifiGetConfigErr : esp_err_t
  wifiCfg : WifiStaConfig
  shellEnabled : Bool

/-- One step of the startup sequence: each external call `app_main` performs,
recorded with the argument values it passes (so that passing a NULL handle
onward is visible in the trace), plus log lines and the abort
`ESP_ERROR_CHECK` performs on a non-`ESP_OK` argument. -/
inductive Step where
  | nvsFlashInit
  | driverLightInit
  | driverButtonInit
  | resetButtonRegister (button : Nat)
  | nodeCreate
  | logE (msg : String)
  | logI (msg : String)
  | lightCreate (node : Option Nat) (handle : Nat)
  | aggregatorCreate (node : Option Nat)
  | getId (ep : Option Nat)
  | clusterGet (ep : Option Nat) (clusterId : Nat)
  | hueSaturationAdd (cluster : Option Nat)
  | matterStart
  | bridgeInit (node : Option Nat)
  | wifiIsProvisioned
  | espErrorCheckAbort
  | wifiSetPsNone
  | espnowInit
  | driverSetDefaults (endpointId : Nat)
  | consoleDiagRegister
  | consoleInit
  deriving DecidableEq, Repr

/-- Function `app_main` from app_main.cpp as a trace of `Step`s, given the results of
its external calls.  The structure follows the source line by line: driver
init, node creation (error logged on NULL, execution continues), light and
aggregator endpoint creation (likewise), `endpoint::get_id` on both handles,
the hue/saturation feature added to the light's ColorControl cluster,
`esp_matter::start` (failure logged, not fatal), `app_bridge_initialize`
(failure logged, not fatal), `ESP_ERROR_CHECK(wifi_is_provisioned(..))`
(which aborts when that call fails), the power-save toggle when provisioned,
ESP-NOW init, driver defaults, and the optional console. -/
def app_main (env : Env) : List Step :=
  [.nvsFlashInit, .driverLightInit, .driverButtonInit,
   .resetButtonRegister env.buttonHandle,
   .nodeCreate]
  ++ (if env.nodeHandle = none then
        [.logE "Matter node creation failed"] else [])
  ++ [.lightCreate env.nodeHandle env.lightHandle]
  ++ (if env.lightEndpoint = none then
        [.logE "Matter color temperature light endpoint creation failed"]
      else [])
  ++ [.aggregatorCreate env.nodeHandle]
  ++ (if env.aggregatorEndpoint = none then
        [.logE "Matter aggregator endpoint creation failed"] else [])
  ++ [.getId env.lightEndpoint,
      .logI "Light created with endpoint_id",
      .getId env.aggregatorEndpoint,
      .logI "Switch created with endpoint id",
      .clusterGet env.lightEndpoint ColorControl_Id,
      .hueSaturationAdd env.colorCluster,
      .matterStart]
  ++ (if env.startErr ≠ ESP_OK then
        [.logE "Matter start failed"] else [])
  ++ [.bridgeInit env.nodeHandle]
  ++ (if env.bridgeInitErr ≠ ESP_OK then
        [.logE "Failed to resume the bridged endpoints"] else [])
  ++ [.wifiIsProvisioned]
  ++ (let r := wifi_is_provisioned false env.wifiGetConfigErr env.wifiCfg
      if r.1 ≠ ESP_OK then
        [.espErrorCheckAbort]
      else
        (if r.2 = some true then
           [.logI "WiFi already provisioned previously, disable PS",
            .wifiSetPsNone]
         else [])
        ++ [.espnowInit, .driverSetDefaults (env.getId env.lightEndpoint)]
        ++ (if env.shellEnabled then [.consoleDiagRegister, .consoleInit]
            else []))

/-! ## Step classifiers for trace statements -/

/-- Steps named by the startup-ordering claim: node construction, the two
endpoint creations, the cluster lookup and feature addition, stack start and
bridge restore. -/
def isCoreStep : Step → Bool
  | .nodeCreate => true
  | .lightCreate _ _ => true
  | .aggregatorCreate _ => true
  | .clusterGet _ _ => true
  | .hueSaturationAdd _ => true
  | .matterStart => true
  | .bridgeInit _ => true
  | _ => false

/-- Startup steps that come after `esp_matter::start` in the source. -/
def isPostStartStep : Step → Bool
  | .bridgeInit _ => true
  | .wifiIsProvisioned => true
  | .espnowInit => true
  | .driverSetDefaults _ => true
  | .consoleDiagRegister => true
  | .consoleInit => true
  | _ => false

/-- Startup steps that come after `app_bridge_initialize` in the source. -/
def isPostBridgeStep : Step → Bool
  | .wifiIsProvisioned => true
  | .espnowInit => true
  | .driverSetDefaults _ => true
  | .consoleDiagRegister => true
  | .consoleInit => true
  | _ => false

/-- Every unconditional startup action: everything except log lines, the
`ESP_ERROR_CHECK` abort and the provision-conditional power-save toggle. -/
def isMainStep : Step → Bool
  | .logE _ => false
  | .logI _ => false
  | .espErrorCheckAbort => false
  | .wifiSetPsNone => false
  | _ => true

/-- The full list of unconditional startup actions of `app_main`, in source
order, with the argument each receives in environment `env`. -/
def mainSteps (env : Env) : List Step :=
  [.nvsFlashInit, .driverLightInit, .driverButtonInit,
   .resetButtonRegister env.buttonHandle,
   .nodeCreate,
   .lightCreate env.nodeHandle env.lightHandle,
   .aggregatorCreate env.nodeHandle,
   .getId env.lightEndpoint,
   .getId env.aggregatorEndpoint,
   .clusterGet env.lightEndpoint ColorControl_Id,
   .hueSaturationAdd env.colorCluster,
   .matterStart,
   .bridgeInit env.nodeHandle,
   .wifiIsProvisioned,
   .espnowInit,
   .driverSetDefaults (env.getId env.lightEndpoint)]
  ++ (if env.shellEnabled then [.consoleDiagRegister, .consoleInit] else [])

/-- A driver-update function that rejects every update (returns `ESP_FAIL`),
used to exercise the failure paths on concrete inputs. -/
def drvAlwaysFail : Nat → Nat → Nat → Nat → Nat → esp_err_t :=
  fun _ _ _ _ _ => ESP_FAIL

/-- A concrete environment in which every external call succeeds except
`esp_matter::start`.  Fields in order: lightHandle, buttonHandle,
nodeHandle, lightEndpoint, aggregatorEndpoint, getId, colorCluster,
startErr, bridgeInitErr, wifiGetConfigErr, wifiCfg, shellEnabled. -/
def envStartFail : Env :=
  ⟨1, 2, some 3, some 4, some 5, fun _ => 7, some 6,
   ESP_FAIL, ESP_OK, ESP_OK, ⟨[]⟩, false⟩

/-- A concrete environment in which every external call succeeds except
`app_bridge_initialize` (same field order as `envStartFail`). -/
def envBridgeFail : Env :=
  ⟨1, 2, some 3, some 4, some 5, fun _ => 7, some 6,
   ESP_OK, ESP_FAIL, ESP_OK, ⟨[]⟩, false⟩

/-- A concrete environment in which node, light-endpoint and
aggregator-endpoint creation all return NULL (same field order as
`envStartFail`). -/
def envNullCreate : Env :=
  ⟨1, 2, none, none, none, fun _ => 0, none,
   ESP_OK, ESP_OK, ESP_OK, ⟨[]⟩, false⟩

/-- Helper: `List.filter` distributes over a conditional block. -/
theorem filter_ite (p : Step → Bool) (c : Prop) [Decidable c]
    (l₁ l₂ : List Step) :
    List.filter p (if c then l₁ else l₂)
      = if c then List.filter p l₁ else List.filter p l₂ := by
  split <;> rfl

/-- Helper: the first projection distributes over a conditional. -/
theorem fst_ite (c : Prop) [Decidable c] (a b : esp_err_t × Option Bool) :
    (if c then a else b).1 = if c then a.1 else b.1 := by
  split <;> rfl

/-- Helper: membership distributes over a conditional block. -/
theorem mem_ite (x : Step) (c : Prop) [Decidable c] (l₁ l₂ : List Step) :
    (x ∈ if c then l₁ else l₂) ↔ if c then x ∈ l₁ else x ∈ l₂ := by
  split <;> rfl

/-- Helper: when `esp_wifi_get_config` succeeds, the projection of the
`app_main` trace onto unconditional startup actions is exactly `mainSteps`,
whatever every other external result is: no creation or start failure
removes, reorders or duplicates a step, and no abort occurs. -/
theorem app_main_filter_isMainStep (env : Env)
    (hw : env.wifiGetConfigErr = ESP_OK) :
    (app_main env).filter isMainStep = mainSteps env := by
  simp [app_main, mainSteps, isMainStep, List.filter_append, filter_ite,
    fst_ite, hw, wifi_is_provisioned]

/-- Helper: when `esp_wifi_get_config` succeeds, `app_main` never reaches the
`ESP_ERROR_CHECK` abort, whatever the other external results are. -/
theorem abort_not_mem_of_wifi_ok (env : Env)
    (hw : env.wifiGetConfigErr = ESP_OK) :
    Step.espErrorCheckAbort ∉ app_main env := by
  simp [app_main, mem_ite, fst_ite, hw, wifi_is_provisioned]

/-! ## Claims -/

/-- C1: For every attribute-update dispatch with phase PRE_UPDATE, the
dispatcher forwards exactly the tuple (driverHandle, endpointId, clusterId,
attributeId, value) it received to `app_driver_attribute_update` (with the
driver handle taken from `priv_data`), and the result it returns equals the
result of that driver call. -/
theorem pre_update_forwards_tuple_and_result
    (drv : Nat → Nat → Nat → Nat → Nat → esp_err_t)
    (endpoint_id cluster_id attribute_id val priv_data : Nat) :
    app_attribute_update_cb drv .PRE_UPDATE endpoint_id cluster_id
        attribute_id val priv_data
      = (drv priv_data endpoint_id cluster_id attribute_id val,
         [⟨priv_data, endpoint_id, cluster_id, attribute_id, val⟩]) := rfl

/-- C2: For every PRE_UPDATE dispatch in which the driver call fails, the
dispatcher returns that failure to the protocol layer and the commit is
aborted: the committed value equals the old value, not the proposed one. -/
theorem driver_failure_aborts_commit
    (drv : Nat → Nat → Nat → Nat → Nat → esp_err_t)
    (endpoint_id cluster_id attribute_id oldVal newVal priv_data : Nat)
    (h : drv priv_data endpoint_id cluster_id attribute_id newVal ≠ ESP_OK) :
    protocol_commit drv endpoint_id cluster_id attribute_id oldVal newVal
        priv_data
      = (drv priv_data endpoint_id cluster_id attribute_id newVal, oldVal) := by
  simp [protocol_commit, app_attribute_update_cb, h]

/-- Witness for C2 at a concrete input: a driver that always fails leaves
the old value 5 in place and propagates `ESP_FAIL`. -/
theorem driver_failure_aborts_commit_witness :
    protocol_commit drvAlwaysFail 1 6 2 5 9 3 = (ESP_FAIL, 5) :=
  driver_failure_aborts_commit drvAlwaysFail 1 6 2 5 9 3 (by decide)

/-- C3: For every dispatch whose phase is not PRE_UPDATE, the dispatcher
performs no driver call and returns `ESP_OK`. -/
theorem non_pre_update_no_driver_call
    (drv : Nat → Nat → Nat → Nat → Nat → esp_err_t)
    (type : callback_type_t) (h : type ≠ .PRE_UPDATE)
    (endpoint_id cluster_id attribute_id val priv_data : Nat) :
    app_attribute_update_cb drv type endpoint_id cluster_id attribute_id val
        priv_data
      = (ESP_OK, []) := by
  simp [app_attribute_update_cb, h]

/-- Witness for C3 at a concrete input: a POST_UPDATE dispatch succeeds with
no driver call, even under a driver that would reject everything. -/
theorem non_pre_update_no_driver_call_witness :
    app_attribute_update_cb drvAlwaysFail .POST_UPDATE 1 6 2 9 3
      = (ESP_OK, []) :=
  non_pre_update_no_driver_call drvAlwaysFail .POST_UPDATE (by decide) 1 6 2 9 3

/-- C4: Every unrecognized event kind is silently ignored (no action, normal
return); each delivered event is handled independently of every other, so
delivery order cannot change how an individual event is handled: routing a
singleton is exactly the per-event handler, and routing a concatenation is
the concatenation of the routings. -/
theorem unknown_event_ignored_and_events_independent :
    (∀ (n : Nat) (arg : Int), app_event_cb (.other n) arg = []) ∧
    (∀ (e : DeviceEventType) (arg : Int),
      route_events [e] arg = app_event_cb e arg) ∧
    (∀ (es₁ es₂ : List DeviceEventType) (arg : Int),
      route_events (es₁ ++ es₂) arg
        = route_events es₁ arg ++ route_events es₂ arg) := by
  refine ⟨fun n arg => rfl, fun e arg => by simp [route_events], ?_⟩
  intro es₁ es₂ arg
  induction es₁ with
  | nil => rfl
  | cons e rest ih => simp [route_events, ih]

/-- C5: In every environment, the startup trace projected onto node
construction, endpoint/cluster attachment, stack start and bridge restore is
exactly: node created first, then the light endpoint, the aggregator
endpoint and the hue/saturation feature (via the ColorControl cluster
lookup) attached to that node, then the stack started, and only then the
bridge registry restored — each exactly once, nothing preceding the node. -/
theorem startup_order (env : Env) :
    (app_main env).filter isCoreStep =
      [.nodeCreate,
       .lightCreate env.nodeHandle env.lightHandle,
       .aggregatorCreate env.nodeHandle,
       .clusterGet env.lightEndpoint ColorControl_Id,
       .hueSaturationAdd env.colorCluster,
       .matterStart,
       .bridgeInit env.nodeHandle] := by
  simp [app_main, isCoreStep, List.filter_append, filter_ite]

/-- C6: When `esp_matter::start` fails (and the later Wi-Fi config fetch
does not itself abort the run), the failure is logged and execution
continues through every remaining startup step: bridge restore, the
provisioning check, ESP-NOW init, driver defaults and the optional console,
with no abort. -/
theorem start_failure_nonfatal (env : Env)
    (h : env.startErr ≠ ESP_OK) (hw : env.wifiGetConfigErr = ESP_OK) :
    Step.logE "Matter start failed" ∈ app_main env ∧
    Step.espErrorCheckAbort ∉ app_main env ∧
    (app_main env).filter isPostStartStep =
      [.bridgeInit env.nodeHandle, .wifiIsProvisioned, .espnowInit,
       .driverSetDefaults (env.getId env.lightEndpoint)]
      ++ (if env.shellEnabled then [.consoleDiagRegister, .consoleInit]
          else []) := by
  refine ⟨?_, abort_not_mem_of_wifi_ok env hw, ?_⟩
  · simp [app_main, mem_ite, fst_ite, h, hw, wifi_is_provisioned]
  · simp [app_main, isPostStartStep, List.filter_append, filter_ite,
      fst_ite, hw, wifi_is_provisioned]

/-- Witness for C6: in `envStartFail` (only the stack start fails) the
failure is logged, no abort happens, and every post-start step runs. -/
theorem start_failure_nonfatal_witness :
    Step.logE "Matter start failed" ∈ app_main envStartFail ∧
    Step.espErrorCheckAbort ∉ app_main envStartFail ∧
    (app_main envStartFail).filter isPostStartStep =
      [.bridgeInit (some 3), .wifiIsProvisioned, .espnowInit,
       .driverSetDefaults 7] :=
  start_failure_nonfatal envStartFail (by decide) (by decide)

/-- C7: When `app_bridge_initialize` fails (and the later Wi-Fi config fetch
does not itself abort the run), the failure is logged and startup proceeds,
executing every subsequent step with no abort. -/
theorem bridge_restore_failure_nonfatal (env : Env)
    (h : env.bridgeInitErr ≠ ESP_OK) (hw : env.wifiGetConfigErr = ESP_OK) :
    Step.logE "Failed to resume the bridged endpoints" ∈ app_main env ∧
    Step.espErrorCheckAbort ∉ app_main env ∧
    (app_main env).filter isPostBridgeStep =
      [.wifiIsProvisioned, .espnowInit,
       .driverSetDefaults (env.getId env.lightEndpoint)]
      ++ (if env.shellEnabled then [.consoleDiagRegister, .consoleInit]
          else []) := by
  refine ⟨?_, abort_not_mem_of_wifi_ok env hw, ?_⟩
  · simp [app_main, mem_ite, fst_ite, h, hw, wifi_is_provisioned]
  · simp [app_main, isPostBridgeStep, List.filter_append, filter_ite,
      fst_ite, hw, wifi_is_provisioned]

/-- Witness for C7: in `envBridgeFail` (only the bridge restore fails) the
failure is logged, no abort happens, and every subsequent step runs. -/
theorem bridge_restore_failure_nonfatal_witness :
    Step.logE "Failed to resume the bridged endpoints" ∈ app_main envBridgeFail ∧
    Step.espErrorCheckAbort ∉ app_main envBridgeFail ∧
    (app_main envBridgeFail).filter isPostBridgeStep =
      [.wifiIsProvisioned, .espnowInit, .driverSetDefaults 7] :=
  bridge_restore_failure_nonfatal envBridgeFail (by decide) (by decide)

/-- C8: For every input, the identification callback returns `ESP_OK`; its
whole observable behaviour is that return value plus one log line — it is a
pure notification point that reads and modifies no state (it is a function
of its arguments only, and its result does not even depend on them). -/
theorem identification_cb_always_ok
    (type endpoint_id effect_id effect_variant priv_data : Nat) :
    app_identification_cb type endpoint_id effect_id effect_variant priv_data
      = (ESP_OK, ["Identification callback: type, effect"]) := rfl

/-- C9: The `wifi_is_provisioned` contract: a NULL out-pointer yields
`ESP_ERR_INVALID_ARG` with nothing written; otherwise the out-value is
assigned on every return path, a failed `esp_wifi_get_config` yields
`ESP_FAIL` with the value still `false` (it was initialized before the
fallible step), and on success the function returns `ESP_OK` with the value
`true` exactly when the stored SSID is a non-empty C string. -/
theorem wifi_is_provisioned_contract (err : esp_err_t) (cfg : WifiStaConfig) :
    wifi_is_provisioned true err cfg = (ESP_ERR_INVALID_ARG, none) ∧
    ((wifi_is_provisioned false err cfg).2).isSome = true ∧
    (err ≠ ESP_OK → wifi_is_provisioned false err cfg = (ESP_FAIL, some false)) ∧
    (err = ESP_OK → (wifi_is_provisioned false err cfg).1 = ESP_OK ∧
      ((wifi_is_provisioned false err cfg).2 = some true ↔
        cstrlen cfg.ssid ≠ 0)) := by
  refine ⟨rfl, ?_, ?_, ?_⟩
  · by_cases he : err = ESP_OK
    · by_cases hs : cstrlen cfg.ssid = 0 <;> simp [wifi_is_provisioned, he, hs]
    · simp [wifi_is_provisioned, he]
  · intro he
    simp [wifi_is_provisioned, he]
  · intro he
    by_cases hs : cstrlen cfg.ssid = 0 <;> simp [wifi_is_provisioned, he, hs]

/-- Witness for C9: a failed config fetch returns `ESP_FAIL` with the
out-value written as `false`. -/
theorem wifi_is_provisioned_contract_witness :
    wifi_is_provisioned false ESP_FAIL ⟨[65]⟩ = (ESP_FAIL, some false) :=
  (wifi_is_provisioned_contract ESP_FAIL ⟨[65]⟩).2.2.1 (by decide)

/-- C10: Creation failures never abort startup.  When node creation returns
NULL it is logged and the NULL node is still passed to both endpoint
creations and to the bridge restore; when the light (resp. aggregator)
endpoint creation returns NULL it is logged and the NULL endpoint is still
passed to `endpoint::get_id` and the cluster lookup; and (as long as the
Wi-Fi config fetch does not itself abort) every unconditional startup step
still runs, in order, with no abort. -/
theorem creation_failure_never_aborts (env : Env)
    (hw : env.wifiGetConfigErr = ESP_OK) :
    (env.nodeHandle = none →
      Step.logE "Matter node creation failed" ∈ app_main env ∧
      Step.lightCreate none env.lightHandle ∈ app_main env ∧
      Step.aggregatorCreate none ∈ app_main env ∧
      Step.bridgeInit none ∈ app_main env) ∧
    (env.lightEndpoint = none →
      Step.logE "Matter color temperature light endpoint creation failed"
        ∈ app_main env ∧
      Step.getId none ∈ app_main env ∧
      Step.clusterGet none ColorControl_Id ∈ app_main env) ∧
    (env.aggregatorEndpoint = none →
      Step.logE "Matter aggregator endpoint creation failed" ∈ app_main env ∧
      Step.getId none ∈ app_main env) ∧
    Step.espErrorCheckAbort ∉ app_main env ∧
    (app_main env).filter isMainStep = mainSteps env := by
  refine ⟨?_, ?_, ?_, abort_not_mem_of_wifi_ok env hw,
    app_main_filter_isMainStep env hw⟩ <;>
  · intro hnull
    simp [app_main, mem_ite, fst_ite, hnull, hw, wifi_is_provisioned]

/-- Witness for C10: with all three creations returning NULL, every error is
logged, the NULL handles are passed onward, nothing aborts, and all
unconditional steps run. -/
theorem creation_failure_never_aborts_witness :
    Step.logE "Matter node creation failed" ∈ app_main envNullCreate ∧
    Step.lightCreate none 1 ∈ app_main envNullCreate ∧
    Step.logE "Matter color temperature light endpoint creation failed"
      ∈ app_main envNullCreate ∧
    Step.logE "Matter aggregator endpoint creation failed"
      ∈ app_main envNullCreate ∧
    Step.espErrorCheckAbort ∉ app_main envNullCreate ∧
    (app_main envNullCreate).filter isMainStep = mainSteps envNullCreate := by
  have h := creation_failure_never_aborts envNullCreate (by decide)
  exact ⟨(h.1 (by decide)).1, (h.1 (by decide)).2.1, (h.2.1 (by decide)).1,
    (h.2.2.1 (by decide)).1, h.2.2.2.1, h.2.2.2.2⟩

end EspNowBridgeLight
